import Mathlib

/-!
Verification of the task-management core of the `django-tarefas` repository.

The Django models, form validation, view-level filtering and the
post-migrate seeding routine are shallowly embedded as executable Lean
definitions:

* timestamps (`DateTimeField`) and dates (`DateField`) are modelled as `Nat`;
* the database rows of `tarefas/models.py` become the structures `Categoria`
  and `Tarefa`; primary keys are explicit `Nat` ids;
* priorities are kept as the *strings* stored in the database
  (`"baixa"`, `"media"`, `"alta"`), because `Tarefa.Meta.ordering`
  (`['-prioridade', '-criada_em']`) orders by the stored string;
* the database contents are a `Store` (a list of tasks and categories);
* Python `str.strip` / `str.isdigit` / `str.startswith` are modelled on the
  character list of the string (`pyStrip`, `pyIsDigit`, `pyStartsWith`);
* `ORDER BY` with a deterministic key is modelled by a stable insertion sort
  with the comparator taken from `Meta.ordering`.
-/

namespace Tarefas

/-- Python `str.strip()` (`titulo.strip()` in `TarefaForm.clean_titulo`, and
the implicit `strip=True` of Django form `CharField`s): drop whitespace from
both ends of the character sequence. -/
def pyStrip (s : String) : String :=
  String.mk (((s.data.dropWhile Char.isWhitespace).reverse.dropWhile
    Char.isWhitespace).reverse)

/-- Python `str.isdigit()` (`titulo.isdigit()` in `TarefaForm.clean_titulo`):
true iff the string is nonempty and every character is a digit. -/
def pyIsDigit (s : String) : Bool :=
  !s.data.isEmpty && s.data.all Char.isDigit

/-- Python `str.startswith(pre)` / the ORM lookup `titulo__startswith`. -/
def pyStartsWith (s pre : String) : Bool :=
  pre.data.isPrefixOf s.data

/-- Codepoint-lexicographic strict comparison of character sequences: the
binary collation SQLite applies when it orders the TEXT column `prioridade`. -/
def charsLt : List Char → List Char → Bool
  | _, [] => false
  | [], _ :: _ => true
  | a :: as, b :: bs =>
    if a.toNat < b.toNat then true
    else if b.toNat < a.toNat then false
    else charsLt as bs

/-- Binary-collation string comparison (see `charsLt`). -/
def strLt (a b : String) : Bool := charsLt a.data b.data

/-- The `Categoria` model (`tarefas/models.py`): `nome`, optional `descricao`,
`cor` from the fixed choice set (stored as its string value). -/
structure Categoria where
  id : Nat
  nome : String
  descricao : Option String
  cor : String
deriving Repr, DecidableEq

/-- The `Tarefa` model (`tarefas/models.py`).  `concluida_em` and `data_limite`
are nullable (`Option`); `categoria` is the nullable foreign key, kept as the
id of the referenced `Categoria`. -/
structure Tarefa where
  id : Nat
  titulo : String
  descricao : String
  concluida : Bool
  prioridade : String
  criada_em : Nat
  atualizada_em : Nat
  concluida_em : Option Nat
  data_limite : Option Nat
  categoria : Option Nat
deriving Repr, DecidableEq

/-- Model method `Tarefa.marcar_concluida`: sets `concluida`, stamps `concluida_em` with
the current time and saves (`auto_now` refreshes `atualizada_em`). -/
def Tarefa.marcar_concluida (t : Tarefa) (now : Nat) : Tarefa :=
  { t with concluida := true, concluida_em := some now, atualizada_em := now }

/-- Model method `Tarefa.marcar_pendente`: clears `concluida` and `concluida_em` and saves
(`auto_now` refreshes `atualizada_em`). -/
def Tarefa.marcar_pendente (t : Tarefa) (now : Nat) : Tarefa :=
  { t with concluida := false, concluida_em := none, atualizada_em := now }

/-- Property `Tarefa.esta_atrasada`: if `data_limite` is set (a date is always
truthy in Python) and the task is not completed, the task is overdue exactly
when today is strictly past the deadline; otherwise `False`. -/
def Tarefa.esta_atrasada (t : Tarefa) (hoje : Nat) : Bool :=
  match t.data_limite with
  | some d => if !t.concluida then decide (hoje > d) else false
  | none => false

/-- Property `Tarefa.emoji_prioridade` (`emojis.get(self.prioridade, white)`). -/
def Tarefa.emoji_prioridade (t : Tarefa) : String :=
  if t.prioridade == "baixa" then "🟢"
  else if t.prioridade == "media" then "🟡"
  else if t.prioridade == "alta" then "🔴"
  else "⚪"

/-- View `alternar_status` (`tarefas/views.py`): flips the completion state
through `marcar_pendente` / `marcar_concluida`. -/
def alternar_status (now : Nat) (t : Tarefa) : Tarefa :=
  if t.concluida then t.marcar_pendente now else t.marcar_concluida now

/-- The comparator of `Tarefa.Meta.ordering = ['-prioridade', '-criada_em']`:
first the stored priority *string* descending (binary collation `strLt`),
then creation time descending. -/
def ordem_le (t1 t2 : Tarefa) : Bool :=
  if t1.prioridade == t2.prioridade then decide (t2.criada_em ≤ t1.criada_em)
  else strLt t2.prioridade t1.prioridade

/-- Insert into a list sorted by `le` (helper for the `ORDER BY` model). -/
def insort (le : Tarefa → Tarefa → Bool) (x : Tarefa) : List Tarefa → List Tarefa
  | [] => [x]
  | y :: ys => if le x y then x :: y :: ys else y :: insort le x ys

/-- Stable insertion sort modelling the SQL `ORDER BY` of the default
queryset ordering. -/
def ordenarPor (le : Tarefa → Tarefa → Bool) : List Tarefa → List Tarefa
  | [] => []
  | x :: xs => insort le x (ordenarPor le xs)

/-- Queryset `Tarefa.objects.all()`: every row, in the `Meta.ordering` order. -/
def ordenar (ts : List Tarefa) : List Tarefa :=
  ordenarPor ordem_le ts

/-- The database contents seen by the views. -/
structure Store where
  tarefas : List Tarefa
  categorias : List Categoria
deriving Repr, DecidableEq

/-- View `lista_tarefas` (`tarefas/views.py`): starts from
`Tarefa.objects.all()` and chains `.filter` calls for the recognized
`status` values, a nonempty `prioridade` and a nonempty `categoria`
GET parameter (the category parameter is modelled already parsed to an
optional id, `none` standing for the empty string). -/
def lista_tarefas (filtro_status filtro_prioridade : String)
    (filtro_categoria : Option Nat) (store : Store) : List Tarefa :=
  let tarefas := ordenar store.tarefas
  let tarefas :=
    if filtro_status == "pendentes" then tarefas.filter (fun t => !t.concluida)
    else if filtro_status == "concluidas" then tarefas.filter (fun t => t.concluida)
    else tarefas
  let tarefas :=
    if filtro_prioridade != "" then
      tarefas.filter (fun t => t.prioridade == filtro_prioridade)
    else tarefas
  let tarefas :=
    match filtro_categoria with
    | some cid => tarefas.filter (fun t => t.categoria == some cid)
    | none => tarefas
  tarefas

/-- The stored values of `Tarefa.PRIORIDADES` (`tarefas/models.py`), the
choice set of the `prioridade` field. -/
def PRIORIDADES : List String := ["baixa", "media", "alta"]

/-- The data a `TarefaForm` is bound to: the five fields of
`TarefaForm.Meta.fields` (`tarefas/forms.py`).  `categoria` and
`data_limite` are modelled already parsed (a missing value is `none`). -/
structure TarefaFormInput where
  titulo : String
  descricao : String
  prioridade : String
  categoria : Option Nat
  data_limite : Option Nat
deriving Repr, DecidableEq

/-- Form hook `TarefaForm.clean_titulo`: strips the title, then rejects titles shorter
than 3 characters or consisting solely of digits. -/
def clean_titulo (titulo : String) : Except String String :=
  let titulo := pyStrip titulo
  if titulo.length < 3 then .error "O título deve ter pelo menos 3 caracteres."
  else if pyIsDigit titulo then .error "O título não pode ser apenas números."
  else .ok titulo

/-- Field-level cleaning of `titulo`: Django's form `CharField` strips the
raw value (`strip=True` default), rejects an empty value (`required`) and a
value longer than the model's `max_length=200`, and only then runs
`clean_titulo`. -/
def campo_titulo (raw : String) : Except String String :=
  let value := pyStrip raw
  if value.length = 0 then .error "O título é obrigatório!"
  else if 200 < value.length then .error "O título é muito longo (máximo 200 caracteres)."
  else clean_titulo value

/-- The errors collected by a full `TarefaForm.is_valid()` run: the `titulo`
field errors, the choice validation of `prioridade`, and the cross-field rule
of `TarefaForm.clean` (a high-priority task needs a nonempty description;
Python truthiness of the stripped `descricao` field value).  Each error is a
`(field, message)` pair. -/
def tarefaForm_errors (input : TarefaFormInput) : List (String × String) :=
  let tituloErrs :=
    match campo_titulo input.titulo with
    | .ok _ => []
    | .error e => [("titulo", e)]
  let prioridadeErrs :=
    if PRIORIDADES.contains input.prioridade then []
    else [("prioridade", "Faça uma escolha válida.")]
  let crossErrs :=
    if input.prioridade == "alta" && pyStrip input.descricao == "" then
      [("descricao", "Tarefas de alta prioridade precisam de descrição!")]
    else []
  tituloErrs ++ prioridadeErrs ++ crossErrs

/-- Validation entry point `TarefaForm.is_valid()`. -/
def tarefaForm_is_valid (input : TarefaFormInput) : Bool :=
  (tarefaForm_errors input).isEmpty

/-- Saving an unbound form, `form.save()` (`criar_tarefa` view): a fresh row with
the cleaned form fields, `concluida=False` and `concluida_em` null by the
model defaults, `auto_now_add`/`auto_now` timestamps set to now. -/
def form_save_create (now nextId : Nat) (input : TarefaFormInput) : Tarefa :=
  { id := nextId, titulo := pyStrip input.titulo,
    descricao := pyStrip input.descricao, concluida := false,
    prioridade := input.prioridade, criada_em := now, atualizada_em := now,
    concluida_em := none, data_limite := input.data_limite,
    categoria := input.categoria }

/-- View `criar_tarefa` (`tarefas/views.py`): validates the form and saves
on success; `none` models the invalid-form branch that re-renders. -/
def criar_tarefa (now nextId : Nat) (input : TarefaFormInput) : Option Tarefa :=
  if tarefaForm_is_valid input then some (form_save_create now nextId input)
  else none

/-- Saving a form bound to an existing instance (`editar_tarefa`
view): overwrites exactly the five `Meta.fields` and refreshes
`atualizada_em` (`auto_now`). -/
def form_save_update (now : Nat) (input : TarefaFormInput) (t : Tarefa) : Tarefa :=
  { t with
    titulo := pyStrip input.titulo, descricao := pyStrip input.descricao,
    prioridade := input.prioridade, categoria := input.categoria,
    data_limite := input.data_limite, atualizada_em := now }

/-- View `editar_tarefa`: validates `TarefaForm(request.POST, instance=tarefa)`
and saves on success; `none` models the invalid-form branch. -/
def editar_tarefa (now : Nat) (input : TarefaFormInput) (t : Tarefa) : Option Tarefa :=
  if tarefaForm_is_valid input then some (form_save_update now input t)
  else none

/-- One entry of the `TAREFAS_ESTUDO` seed list (`tarefas/signals.py`).
`descricao` is abbreviated to the first line of the source's long multi-line
study text; no verified property depends on the description bodies. -/
structure SeedEntry where
  titulo : String
  descricao : String
  prioridade : String
  categoria_nome : Option String
  categoria_cor : String
deriving Repr, DecidableEq

/-- The fixed ordered seed list of `tarefas/signals.py`. -/
def TAREFAS_ESTUDO : List SeedEntry :=
  [ { titulo := "📚 Passo 1: Entender a estrutura do projeto Django",
      descricao := "Este projeto tem a seguinte estrutura:",
      prioridade := "alta",
      categoria_nome := some "🎓 Fundamentos", categoria_cor := "primary" },
    { titulo := "📚 Passo 2: Entender o arquivo settings.py",
      descricao := "O arquivo core/settings.py é o coração do Django!",
      prioridade := "alta",
      categoria_nome := some "🎓 Fundamentos", categoria_cor := "primary" },
    { titulo := "🗃️ Passo 3: Estudar os Models (models.py)",
      descricao := "Models definem a estrutura do banco de dados usando classes Python.",
      prioridade := "alta",
      categoria_nome := some "🗃️ Models e ORM", categoria_cor := "warning" },
    { titulo := "🗃️ Passo 4: Praticar consultas no Django Shell",
      descricao := "O Django Shell permite testar comandos interativamente.",
      prioridade := "alta",
      categoria_nome := some "🗃️ Models e ORM", categoria_cor := "warning" },
    { titulo := "🔗 Passo 5: Entender o sistema de URLs",
      descricao := "O Django mapeia URLs para Views em dois arquivos:",
      prioridade := "media",
      categoria_nome := some "🔗 URLs e Views", categoria_cor := "info" },
    { titulo := "🔗 Passo 6: Estudar as Views (views.py)",
      descricao := "Views são funções que processam requisições e retornam respostas.",
      prioridade := "media",
      categoria_nome := some "🔗 URLs e Views", categoria_cor := "info" },
    { titulo := "🎨 Passo 7: Entender o sistema de Templates",
      descricao := "Templates são arquivos HTML com lógica do Django.",
      prioridade := "media",
      categoria_nome := some "🎨 Templates", categoria_cor := "success" },
    { titulo := "🎨 Passo 8: Estudar o template base.html",
      descricao := "O template base.html é o layout principal do projeto.",
      prioridade := "media",
      categoria_nome := some "🎨 Templates", categoria_cor := "success" },
    { titulo := "📝 Passo 9: Entender os Formulários (forms.py)",
      descricao := "Formulários do Django facilitam a entrada de dados.",
      prioridade := "media",
      categoria_nome := some "📝 Formulários", categoria_cor := "secondary" },
    { titulo := "⚙️ Passo 10: Explorar o Django Admin",
      descricao := "O Django Admin é um painel de administração automático!",
      prioridade := "baixa",
      categoria_nome := some "⚙️ Administração", categoria_cor := "danger" },
    { titulo := "🚀 Passo 11: Entender os Signals (signals.py)",
      descricao := "Signals permitem executar código quando eventos acontecem.",
      prioridade := "baixa",
      categoria_nome := some "🚀 Avançado", categoria_cor := "danger" },
    { titulo := "🚀 Passo 12: Arquivos Estáticos (CSS, JS)",
      descricao := "Arquivos estáticos são CSS, JavaScript, imagens, etc.",
      prioridade := "baixa",
      categoria_nome := some "🚀 Avançado", categoria_cor := "danger" },
    { titulo := "🚀 Passo 13: Migrações do Django",
      descricao := "Migrações são como \"versões\" do seu banco de dados.",
      prioridade := "baixa",
      categoria_nome := some "🚀 Avançado", categoria_cor := "danger" },
    { titulo := "🎯 Passo 14: Desafio Final - Crie sua própria funcionalidade!",
      descricao := "Parabéns por chegar até aqui! Agora é hora de praticar!",
      prioridade := "alta",
      categoria_nome := some "🎯 Projeto Final", categoria_cor := "success" } ]

/-- The lookup `Categoria.objects.get_or_create(nome=..., defaults=...)` combined with
the run-local `categorias_cache` of the seeding loop: looking the name up in
the store is behaviorally identical to the cache, because every category
created earlier in the run is already in the store and found by name.
Returns the chosen category id, the updated category table and the next
fresh category id. -/
def seedCategoria (dados : SeedEntry) (categorias : List Categoria)
    (nextC : Nat) : Option Nat × List Categoria × Nat :=
  match dados.categoria_nome with
  | some nome =>
    match categorias.find? (fun c => c.nome == nome) with
    | some c => (some c.id, categorias, nextC)
    | none =>
      (some nextC,
       categorias ++ [{ id := nextC, nome := nome, descricao := none,
                        cor := dados.categoria_cor }],
       nextC + 1)
  | none => (none, categorias, nextC)

/-- One iteration of the seeding loop: resolve the category, then
`Tarefa.objects.create(...)` with `concluida=False` and no deadline.  The
accumulator carries the store and the next fresh task and category ids. -/
def seedPasso (now : Nat) (acc : Store × Nat × Nat) (dados : SeedEntry) :
    Store × Nat × Nat :=
  let store := acc.1
  let sc := seedCategoria dados store.categorias acc.2.2
  let t : Tarefa :=
    { id := acc.2.1, titulo := dados.titulo, descricao := dados.descricao,
      concluida := false, prioridade := dados.prioridade, criada_em := now,
      atualizada_em := now, concluida_em := none, data_limite := none,
      categoria := sc.1 }
  ({ tarefas := store.tarefas ++ [t], categorias := sc.2.1 },
   acc.2.1 + 1, sc.2.2)

/-- Auto-assigned primary keys: the next fresh id for a table. -/
def proximo_id (ids : List Nat) : Nat := ids.foldr max 0 + 1

/-- Receiver `popular_tarefas_estudo` (`tarefas/signals.py`), for a
`post_migrate` signal whose sender is the `tarefas` app itself: skipped
entirely in test mode (`'test' in sys.argv`); skipped when the sentinel task
(title starting with the fixed marker) already exists; otherwise inserts the
fixed seed list.  Returns whether it seeded, paired with the new store. -/
def popular_tarefas_estudo (test_mode : Bool) (now : Nat) (store : Store) :
    Bool × Store :=
  if test_mode then (false, store)
  else if store.tarefas.any (fun t => pyStartsWith t.titulo "📚 Passo 1:") then
    (false, store)
  else
    (true,
     (TAREFAS_ESTUDO.foldl (seedPasso now)
       (store, proximo_id (store.tarefas.map Tarefa.id),
        proximo_id (store.categorias.map Categoria.id))).1)

/-! ### Helper lemmas -/

/-- Membership is preserved by sorted insertion. -/
theorem mem_insort (le : Tarefa → Tarefa → Bool) (x t : Tarefa)
    (l : List Tarefa) : t ∈ insort le x l ↔ t = x ∨ t ∈ l := by
  induction l with
  | nil => simp [insort]
  | cons y ys ih =>
    by_cases h : le x y = true
    · simp [insort, h]
    · simp [insort, h, ih]
      tauto

/-- Membership is preserved by the sorting of the default ordering. -/
theorem mem_ordenarPor (le : Tarefa → Tarefa → Bool) (t : Tarefa)
    (l : List Tarefa) : t ∈ ordenarPor le l ↔ t ∈ l := by
  induction l with
  | nil => simp [ordenarPor]
  | cons x xs ih => simp [ordenarPor, mem_insort, ih]

/-- Membership in `Tarefa.objects.all()` is membership in the task table. -/
theorem mem_ordenar (t : Tarefa) (l : List Tarefa) :
    t ∈ ordenar l ↔ t ∈ l :=
  mem_ordenarPor ordem_le t l

/-! ### Concrete fixtures used by the claims -/

/-- C1 fixture: the low-priority task, created later (`t1` in the spec). -/
def C1_T1 : Tarefa :=
  { id := 1, titulo := "Tarefa T1", descricao := "", concluida := false,
    prioridade := "baixa", criada_em := 2, atualizada_em := 2,
    concluida_em := none, data_limite := none, categoria := none }

/-- C1 fixture: the high-priority task, created earlier (`t2 < t1`). -/
def C1_T2 : Tarefa :=
  { id := 2, titulo := "Tarefa T2", descricao := "", concluida := false,
    prioridade := "alta", criada_em := 1, atualizada_em := 1,
    concluida_em := none, data_limite := none, categoria := none }

/-- C8/C10 fixture: pending high-priority task. -/
def C8_T1 : Tarefa :=
  { id := 1, titulo := "Tarefa pendente", descricao := "", concluida := false,
    prioridade := "alta", criada_em := 1, atualizada_em := 1,
    concluida_em := none, data_limite := none, categoria := none }

/-- C8/C10 fixture: completed low-priority task. -/
def C8_T2 : Tarefa :=
  { id := 2, titulo := "Tarefa feita", descricao := "", concluida := true,
    prioridade := "baixa", criada_em := 2, atualizada_em := 2,
    concluida_em := some 2, data_limite := none, categoria := none }

/-- C8/C10 fixture store. -/
def C8_store : Store := { tarefas := [C8_T1, C8_T2], categorias := [] }

/-- The status predicate applied by `lista_tarefas`. -/
def passa_status (s : String) (t : Tarefa) : Bool :=
  if s == "pendentes" then !t.concluida
  else if s == "concluidas" then t.concluida
  else true

/-- The priority predicate applied by `lista_tarefas`. -/
def passa_prioridade (p : String) (t : Tarefa) : Bool :=
  if p != "" then t.prioridade == p else true

/-- The category predicate applied by `lista_tarefas`. -/
def passa_categoria (c : Option Nat) (t : Tarefa) : Bool :=
  match c with
  | some cid => t.categoria == some cid
  | none => true

/-! ### Claims -/

/-- Claim C1 (status: code bug).  The spec, and the comment directly above
`Tarefa.Meta.ordering`, say high priority comes first; but
`ordering = ['-prioridade', '-criada_em']` sorts the stored priority string
descending, and `"media" > "baixa" > "alta"` in string order, so the
low-priority `C1_T1` is listed before the earlier-created high-priority
`C1_T2`: the unfiltered list is `[C1_T1, C1_T2]`, not the `[C1_T2, C1_T1]`
the claim requires. -/
theorem C1_ordenacao_padrao :
    lista_tarefas "todas" "" none { tarefas := [C1_T1, C1_T2], categorias := [] }
        = [C1_T1, C1_T2]
    ∧ lista_tarefas "todas" "" none { tarefas := [C1_T1, C1_T2], categorias := [] }
        ≠ [C1_T2, C1_T1] :=
  ⟨by decide, by decide⟩

/-- Claim C2: `completed_at` is non-null iff `completed`, after `create`
(which stores `concluida=False`, `concluida_em=None`) and after every
`alternar_status` toggle (the transition to true stamps `concluida_em := now`,
the transition to false clears it). -/
theorem C2_invariante_conclusao (now nextId : Nat) (input : TarefaFormInput)
    (t : Tarefa) :
    ((form_save_create now nextId input).concluida = false
      ∧ (form_save_create now nextId input).concluida_em = none
      ∧ (form_save_create now nextId input).concluida_em.isSome
          = (form_save_create now nextId input).concluida)
    ∧ ((alternar_status now t).concluida = !t.concluida
      ∧ (alternar_status now t).concluida_em
          = (if t.concluida then none else some now)
      ∧ (alternar_status now t).concluida_em.isSome
          = (alternar_status now t).concluida) := by
  refine ⟨⟨rfl, rfl, rfl⟩, ?_, ?_, ?_⟩ <;>
    cases h : t.concluida <;>
      simp [alternar_status, Tarefa.marcar_concluida, Tarefa.marcar_pendente, h]

/-- Claim C5: `esta_atrasada` holds exactly when a deadline is set, the
deadline is strictly before today, and the task is not completed. -/
theorem C5_esta_atrasada (t : Tarefa) (hoje : Nat) :
    t.esta_atrasada hoje = true
      ↔ ∃ d, t.data_limite = some d ∧ d < hoje ∧ t.concluida = false := by
  cases h : t.data_limite <;> cases hc : t.concluida <;>
    simp [Tarefa.esta_atrasada, h, hc]

/-- Claim C7: with the test-mode flag active (`'test' in sys.argv`), the
seeding routine returns `False` and leaves the store untouched, for every
starting store. -/
theorem C7_modo_teste (now : Nat) (store : Store) :
    popular_tarefas_estudo true now store = (false, store) := rfl

/-- Claim C8: `lista_tarefas` combines the status, priority and category
filters by logical AND over the store contents; on the two-task fixture the
`pendentes`, `concluidas` and `prioridade=alta` queries return exactly
`[C8_T1]`, `[C8_T2]` and `[C8_T1]`. -/
theorem C8_filtros :
    (∀ (store : Store) (s p : String) (c : Option Nat) (t : Tarefa),
      t ∈ lista_tarefas s p c store
        ↔ t ∈ store.tarefas ∧ passa_status s t = true
            ∧ passa_prioridade p t = true ∧ passa_categoria c t = true)
    ∧ lista_tarefas "pendentes" "" none C8_store = [C8_T1]
    ∧ lista_tarefas "concluidas" "" none C8_store = [C8_T2]
    ∧ lista_tarefas "todas" "alta" none C8_store = [C8_T1] := by
  refine ⟨?_, by decide, by decide, by decide⟩
  intro store s p c t
  unfold lista_tarefas passa_status passa_prioridade passa_categoria
  cases c <;> split_ifs <;> simp_all [List.mem_filter, mem_ordenar] <;> tauto

/-- Claim C10: any status value other than the recognized `pendentes` /
`concluidas` falls through both `elif` branches of `lista_tarefas`, so the
view applies no completion filter and behaves exactly like `todas`. -/
theorem C10_status_desconhecido (s p : String) (c : Option Nat) (store : Store)
    (h1 : s ≠ "pendentes") (h2 : s ≠ "concluidas") :
    lista_tarefas s p c store = lista_tarefas "todas" p c store := by
  have e1 : (s == "pendentes") = false := by simp [h1]
  have e2 : (s == "concluidas") = false := by simp [h2]
  simp [lista_tarefas, e1, e2]

/-- Witness for C10: the unrecognized status string `"qualquer"` yields the
same list as `todas`, which contains both the completed and the pending
fixture task. -/
theorem C10_testemunha :
    lista_tarefas "qualquer" "" none C8_store
        = lista_tarefas "todas" "" none C8_store
    ∧ lista_tarefas "todas" "" none C8_store = [C8_T2, C8_T1] :=
  ⟨C10_status_desconhecido "qualquer" "" none C8_store (by decide) (by decide),
   by decide⟩

/-- Claim C9: a successful `editar_tarefa` save overwrites only the five
`TarefaForm.Meta.fields`, so `concluida` and `concluida_em` keep their
previous values. -/
theorem C9_editar_preserva_conclusao (now : Nat) (input : TarefaFormInput)
    (t t' : Tarefa) (h : editar_tarefa now input t = some t') :
    t'.concluida = t.concluida ∧ t'.concluida_em = t.concluida_em := by
  unfold editar_tarefa at h
  by_cases hv : tarefaForm_is_valid input = true
  · rw [if_pos hv] at h
    obtain rfl := Option.some.inj h
    exact ⟨rfl, rfl⟩
  · rw [if_neg hv] at h
    simp at h

/-- C9 witness fixture: a completed task about to be edited. -/
def C9_T : Tarefa :=
  { id := 3, titulo := "Tarefa antiga", descricao := "", concluida := true,
    prioridade := "baixa", criada_em := 1, atualizada_em := 1,
    concluida_em := some 4, data_limite := none, categoria := none }

/-- C9 witness fixture: valid replacement field values. -/
def C9_entrada : TarefaFormInput :=
  { titulo := "Novo titulo", descricao := "", prioridade := "media",
    categoria := none, data_limite := none }

/-- Witness for C9: editing the completed fixture task with valid data
succeeds and leaves `concluida`/`concluida_em` untouched. -/
theorem C9_testemunha :
    editar_tarefa 9 C9_entrada C9_T = some (form_save_update 9 C9_entrada C9_T)
    ∧ (form_save_update 9 C9_entrada C9_T).concluida = C9_T.concluida
    ∧ (form_save_update 9 C9_entrada C9_T).concluida_em = C9_T.concluida_em :=
  ⟨by decide,
   C9_editar_preserva_conclusao 9 C9_entrada C9_T
     (form_save_update 9 C9_entrada C9_T) (by decide)⟩

/-- A form that validated with priority `alta` has a nonempty stripped
description: otherwise `TarefaForm.clean` would have attached the
`descricao` error. -/
theorem valid_alta_descricao (input : TarefaFormInput)
    (hv : tarefaForm_is_valid input = true) (hp : input.prioridade = "alta") :
    pyStrip input.descricao ≠ "" := by
  intro hd
  have hcross : (input.prioridade == "alta" && pyStrip input.descricao == "")
      = true := by rw [hp, hd]; decide
  unfold tarefaForm_is_valid tarefaForm_errors at hv
  rw [if_pos hcross] at hv
  simp at hv

/-- Claim C3: creating (or updating) with priority `alta` and an empty
description fails validation with an error on the `descricao` field; and
every task that passed `create`/`update` validation with priority `alta`
has a nonempty description. -/
theorem C3_descricao_alta (now nextId : Nat) (input : TarefaFormInput)
    (t t' : Tarefa) :
    (input.prioridade = "alta" → input.descricao = "" →
      tarefaForm_is_valid input = false
        ∧ "descricao" ∈ (tarefaForm_errors input).map Prod.fst)
    ∧ (criar_tarefa now nextId input = some t' → t'.prioridade = "alta" →
        t'.descricao ≠ "")
    ∧ (editar_tarefa now input t = some t' → t'.prioridade = "alta" →
        t'.descricao ≠ "") := by
  refine ⟨?_, ?_, ?_⟩
  · intro hp hd
    have hcross : (input.prioridade == "alta" && pyStrip input.descricao == "")
        = true := by rw [hp, hd]; decide
    unfold tarefaForm_is_valid tarefaForm_errors
    rw [if_pos hcross]
    constructor
    · simp
    · simp
  · intro h hp'
    unfold criar_tarefa at h
    by_cases hv : tarefaForm_is_valid input = true
    · rw [if_pos hv] at h
      obtain rfl := Option.some.inj h
      exact valid_alta_descricao input hv hp'
    · rw [if_neg hv] at h
      simp at h
  · intro h hp'
    unfold editar_tarefa at h
    by_cases hv : tarefaForm_is_valid input = true
    · rw [if_pos hv] at h
      obtain rfl := Option.some.inj h
      exact valid_alta_descricao input hv hp'
    · rw [if_neg hv] at h
      simp at h

/-- C3 witness fixture: high priority, empty description (invalid). -/
def C3_ruim : TarefaFormInput :=
  { titulo := "Tarefa valida", descricao := "", prioridade := "alta",
    categoria := none, data_limite := none }

/-- C3 witness fixture: high priority, nonempty description (valid). -/
def C3_boa : TarefaFormInput :=
  { titulo := "Tarefa valida", descricao := "Detalhes da tarefa",
    prioridade := "alta", categoria := none, data_limite := none }

/-- Witness for C3: the invalid fixture fails with a `descricao` error; the
valid fixture creates a task with a nonempty description. -/
theorem C3_testemunha :
    (tarefaForm_is_valid C3_ruim = false
      ∧ "descricao" ∈ (tarefaForm_errors C3_ruim).map Prod.fst)
    ∧ (form_save_create 0 1 C3_boa).descricao ≠ "" :=
  ⟨(C3_descricao_alta 0 1 C3_ruim (form_save_create 0 1 C3_ruim)
      (form_save_create 0 1 C3_ruim)).1 rfl rfl,
   (C3_descricao_alta 0 1 C3_boa (form_save_create 0 1 C3_boa)
      (form_save_create 0 1 C3_boa)).2.1 (by decide) rfl⟩

/-- The head of `dropWhile p l` does not satisfy `p`. -/
theorem dropWhile_head_false {α : Type} (p : α → Bool) (l : List α) :
    ∀ x ∈ (l.dropWhile p).head?, p x = false := by
  induction l with
  | nil => simp
  | cons a l ih =>
    cases hpa : p a with
    | true => simpa [List.dropWhile_cons, hpa] using ih
    | false => simp [List.dropWhile_cons, hpa]

/-- A list whose head does not satisfy `p` is unchanged by `dropWhile p`. -/
theorem dropWhile_eq_self {α : Type} (p : α → Bool) (l : List α)
    (h : ∀ x ∈ l.head?, p x = false) : l.dropWhile p = l := by
  cases l with
  | nil => rfl
  | cons a l => simp_all [List.dropWhile_cons]

/-- Idempotence of `dropWhile`. -/
theorem dropWhile_idem {α : Type} (p : α → Bool) (l : List α) :
    (l.dropWhile p).dropWhile p = l.dropWhile p :=
  dropWhile_eq_self p _ (dropWhile_head_false p l)

/-- Two-sided trimming of a character sequence is idempotent (list core of
`pyStrip_idem`). -/
theorem strip_nucleo {α : Type} (p : α → Bool) (l : List α) :
    ((((((l.dropWhile p).reverse.dropWhile p).reverse).dropWhile p).reverse).dropWhile p).reverse
      = ((l.dropWhile p).reverse.dropWhile p).reverse := by
  have hR : (((l.dropWhile p).reverse.dropWhile p).reverse).dropWhile p
      = ((l.dropWhile p).reverse.dropWhile p).reverse := by
    apply dropWhile_eq_self
    intro x hx
    cases hRc : ((l.dropWhile p).reverse.dropWhile p).reverse with
    | nil => rw [hRc] at hx; simp at hx
    | cons r rs =>
      rw [hRc] at hx
      simp at hx
      subst hx
      have hA : ((l.dropWhile p).reverse.dropWhile p).reverse
          ++ ((l.dropWhile p).reverse.takeWhile p).reverse = l.dropWhile p := by
        rw [← List.reverse_append, List.takeWhile_append_dropWhile,
          List.reverse_reverse]
      rw [hRc] at hA
      have hhead : (l.dropWhile p).head? = some r := by
        rw [← hA]; rfl
      exact dropWhile_head_false p l r (Option.mem_def.mpr hhead)
  rw [hR, List.reverse_reverse, dropWhile_idem]

/-- Python `strip` is idempotent, so the second strip inside `clean_titulo`
(after the field-level strip) changes nothing. -/
theorem pyStrip_idem (s : String) : pyStrip (pyStrip s) = pyStrip s := by
  unfold pyStrip
  exact congrArg String.mk (strip_nucleo Char.isWhitespace s.data)

/-- Characterization of the full `titulo` validation chain: it accepts
exactly the titles whose stripped length is between 3 and 200 and that are
not all digits. -/
theorem campo_titulo_ok (raw : String) :
    (∃ v, campo_titulo raw = .ok v)
      ↔ 3 ≤ (pyStrip raw).length ∧ (pyStrip raw).length ≤ 200
          ∧ pyIsDigit (pyStrip raw) = false := by
  unfold campo_titulo clean_titulo
  by_cases h0 : (pyStrip raw).length = 0
  · simp [h0, pyStrip_idem]
  · by_cases h200 : 200 < (pyStrip raw).length
    · simp [h0, h200, pyStrip_idem]
    · by_cases h3 : (pyStrip raw).length < 3
      · simp [h0, h200, h3, pyStrip_idem]
      · by_cases hd : pyIsDigit (pyStrip raw) = true
        · simp [h0, h200, h3, hd, pyStrip_idem]
        · simp [h0, h200, h3, hd, pyStrip_idem]
          omega

/-- C4 input shape: `create(title=...)` with the other fields benign
(default `media` priority, empty description, no category or deadline). -/
def C4_entrada (titulo : String) : TarefaFormInput :=
  { titulo := titulo, descricao := "", prioridade := "media",
    categoria := none, data_limite := none }

set_option maxRecDepth 4096 in
/-- Counterexample to claim C4 as stated: a title of 201 `a`s has stripped
length at least 3 and is not all digits, yet `create` rejects it (the form
`CharField` enforces the model `max_length=200`), so "otherwise the title
passes" is false. -/
theorem C4_contraexemplo :
    3 ≤ (pyStrip (String.mk (List.replicate 201 'a'))).length
    ∧ pyIsDigit (pyStrip (String.mk (List.replicate 201 'a'))) = false
    ∧ criar_tarefa 0 1 (C4_entrada (String.mk (List.replicate 201 'a'))) = none :=
  ⟨by decide, by decide, by decide⟩

/-- Claim C4 as amended: a title is accepted by `create` exactly when its
trimmed length is at least 3 and at most 200 and it does not consist solely
of digits; in particular `"ab"` and `"123"` fail while `"abc"` and `"a1b"`
succeed. -/
theorem C4_validacao_titulo (titulo : String) :
    (criar_tarefa 0 1 (C4_entrada titulo) ≠ none
      ↔ 3 ≤ (pyStrip titulo).length ∧ (pyStrip titulo).length ≤ 200
          ∧ pyIsDigit (pyStrip titulo) = false)
    ∧ criar_tarefa 0 1 (C4_entrada "ab") = none
    ∧ criar_tarefa 0 1 (C4_entrada "abc") ≠ none
    ∧ criar_tarefa 0 1 (C4_entrada "123") = none
    ∧ criar_tarefa 0 1 (C4_entrada "a1b") ≠ none := by
  refine ⟨?_, by decide, by decide, by decide, by decide⟩
  have hval : tarefaForm_is_valid (C4_entrada titulo) = true
      ↔ ∃ v, campo_titulo titulo = .ok v := by
    unfold tarefaForm_is_valid tarefaForm_errors C4_entrada
    cases hc : campo_titulo titulo with
    | ok v => simp [hc, PRIORIDADES]
    | error e => simp [hc]
  have hcriar : criar_tarefa 0 1 (C4_entrada titulo) ≠ none
      ↔ tarefaForm_is_valid (C4_entrada titulo) = true := by
    unfold criar_tarefa
    by_cases hv : tarefaForm_is_valid (C4_entrada titulo) = true
    · simp [hv]
    · simp [hv]
  rw [hcriar, hval, campo_titulo_ok]

/-- Each seeding iteration appends exactly one task, carrying the entry's
title. -/
theorem seedPasso_titulos (now : Nat) (acc : Store × Nat × Nat)
    (dados : SeedEntry) :
    ((seedPasso now acc dados).1.tarefas).map Tarefa.titulo
      = (acc.1.tarefas).map Tarefa.titulo ++ [dados.titulo] := by
  simp [seedPasso]

/-- The seeding loop appends the titles of the seed list, in order, to the
task table. -/
theorem seed_titulos (now : Nat) (l : List SeedEntry) :
    ∀ acc : Store × Nat × Nat,
      ((l.foldl (seedPasso now) acc).1.tarefas).map Tarefa.titulo
        = (acc.1.tarefas).map Tarefa.titulo ++ l.map SeedEntry.titulo := by
  induction l with
  | nil => intro acc; simp
  | cons dados rest ih =>
    intro acc
    rw [List.foldl_cons, ih, seedPasso_titulos]
    simp

/-- When the sentinel task is present, the seeding routine is a no-op that
returns `False`. -/
theorem popular_sentinela_noop (now : Nat) (s : Store)
    (h : s.tarefas.any (fun t => pyStartsWith t.titulo "📚 Passo 1:") = true) :
    popular_tarefas_estudo false now s = (false, s) := by
  simp [popular_tarefas_estudo, h]

/-- Claim C6: from any starting store (test mode off), after one
`popular_tarefas_estudo` run the sentinel task (title starting with the
fixed marker) is present, so a second run returns `False` and leaves the
store unchanged — exactly one set of seeded records. -/
theorem C6_seed_idempotente (store : Store) (now1 now2 : Nat) :
    (popular_tarefas_estudo false now1 store).2.tarefas.any
        (fun t => pyStartsWith t.titulo "📚 Passo 1:") = true
    ∧ popular_tarefas_estudo false now2 (popular_tarefas_estudo false now1 store).2
        = (false, (popular_tarefas_estudo false now1 store).2) := by
  have hsent : (popular_tarefas_estudo false now1 store).2.tarefas.any
      (fun t => pyStartsWith t.titulo "📚 Passo 1:") = true := by
    by_cases h : store.tarefas.any
        (fun t => pyStartsWith t.titulo "📚 Passo 1:") = true
    · simp [popular_tarefas_estudo, h]
    · have hm := seed_titulos now1 TAREFAS_ESTUDO
        (store, proximo_id (store.tarefas.map Tarefa.id),
         proximo_id (store.categorias.map Categoria.id))
      have hmapa : ((TAREFAS_ESTUDO.foldl (seedPasso now1)
            (store, proximo_id (store.tarefas.map Tarefa.id),
             proximo_id (store.categorias.map Categoria.id))).1.tarefas.map
              Tarefa.titulo).any (fun s => pyStartsWith s "📚 Passo 1:")
          = true := by
        rw [hm, List.any_append]
        have hc : ((TAREFAS_ESTUDO.map SeedEntry.titulo).any
            (fun s => pyStartsWith s "📚 Passo 1:")) = true := by decide
        rw [hc, Bool.or_true]
      simp only [popular_tarefas_estudo, h]
      simpa [List.any_map, Function.comp] using hmapa
  exact ⟨hsent, popular_sentinela_noop now2 _ hsent⟩

end Tarefas
